import Mathlib

/-
Verification of `tdc1_gui.py` (TDC1 photon-counter GUI).

Shallow embedding conventions:
* The GUI state (`MainWindow`) becomes the structure `MainState`; the worker
  object (`logWorker`) becomes `LogWorker`.  Qt widgets themselves (buttons,
  combo boxes, plot widgets) are external; only the Python-visible attributes
  the handlers read or write are modelled.
* The worker's polling loops read the shared attribute `self.active_flag`,
  which the GUI thread may set concurrently.  Successive reads of the flag are
  therefore modelled by a function `flag : Nat → Bool` giving the value seen by
  the n-th read.  Loops take a `fuel` bound; `none` means the loop is still
  running after `fuel` iterations.
* Device driver calls (`get_counts`, `count_g2`, ...) are external
  (`S15lib`); their successive return values are modelled by functions
  `cnts, g2 : Nat → _` indexed by the iteration that makes the call.
* Signal emissions are modelled as events (`LogEvent`) appended to a trace;
  the CSV log file is modelled as `Option (List String)` (`none` = the file
  does not exist, `some ls` = it exists with lines `ls`, newlines stripped).
* Python ints are `Int`, Python floats arising from `* 1e-3` and from the g2
  histogram are modelled as exact rationals `ℚ`; `numpy.astype(np.int32)` is
  truncation toward zero followed by wrap-around into the int32 range, and the
  in-place `+=` on the histogram buffer (an `np.zeros_like(np.arange(...))`
  array, default int64 dtype) wraps each stored sum into the int64 range.
* Python exceptions (`NameError`, `AttributeError`) become `Except PyError`.
-/

/-- Python exceptions raised by the code under verification. -/
inductive PyError where
  | nameError (name : String)
  | attributeError (name : String)
deriving DecidableEq

/-- The dict returned by the external `tdc1_dev.count_g2` call.  Its shape is
taken from the comment in `MainWindow.updateHistogram`: "{int - ch_start
counts, int - ch_stop counts, int - actual acq time, float - time bins,
float - histogram values}".  Only the `histogram` entry is ever read. -/
structure G2Dict where
  ch_start_counts : Int
  ch_stop_counts : Int
  acq_time : Int
  time_bins : List ℚ
  histogram : List ℚ
deriving DecidableEq

/-- The `logWorker` object's Python-visible attributes (`__init__`). -/
structure LogWorker where
  active_flag : Bool
  radio_flags : List Nat
  int_time : ℚ
deriving DecidableEq

/-- Handle for the external `tdc1.TimeStampTDC1` device object: the path it
was constructed from and the last value assigned to its `mode` property. -/
structure TDC1Device where
  path : String
  mode : String
deriving DecidableEq

/-- Modelled from the spec: the external `S15lib` driver constructor
`tdc1.TimeStampTDC1(devPath)` (a non-goal dependency of the repository).
Only the stored path matters to the GUI; the initial mode is unspecified and
modelled as the empty string. -/
def TimeStampTDC1 (path : String) : TDC1Device := { path := path, mode := "" }

/-- The `MainWindow` attributes the verified handlers read or write
(`MainWindow.__init__` and the plot-data variables of `initUI`). -/
structure MainState where
  _tdc1_dev : Option TDC1Device
  _dev_mode : String
  device_path : String
  integration_time : ℚ
  _logfile_name : String
  log_flag : Bool
  acq_flag : Bool
  _radio_flags : List Nat
  logger : Option LogWorker
  logger_thread : Option Unit
  x : List Int
  y1 : List Int
  y2 : List Int
  y3 : List Int
  y4 : List Int
  x0 : List Int
  y0 : List Int
deriving DecidableEq

/-- `PLT_SAMPLES = 500` (tdc1_gui.py line 27). -/
def PLT_SAMPLES : Nat := 500

/-- `np.arange(0, 1000, 2)`: the fixed 500-entry histogram bin array. -/
def x0_init : List Int := (List.range 500).map (fun i => Int.ofNat (2 * i))

/-- `MainWindow.resetDataAndPlots`: reassigns the plot-data variables
(`setData`/`setChecked` calls act on widgets only; the toggled slots they
re-fire can touch `_radio_flags`, but the final line overwrites it with
`[0,0,0,0]` regardless). -/
def resetDataAndPlots (s : MainState) : MainState :=
  { s with x0 := x0_init, y0 := List.replicate 500 0,
           x := [], y1 := [], y2 := [], y3 := [], y4 := [],
           _radio_flags := [0, 0, 0, 0] }

/-- `MainWindow.StrongResetInternalVariables`. -/
def StrongResetInternalVariables (s : MainState) : MainState :=
  { s with integration_time := 1, _logfile_name := "",
           logger := none, logger_thread := none,
           _tdc1_dev := none, _dev_mode := "", device_path := "" }

/-- `MainWindow.WeakResetInternalVariables`: like the strong reset but keeps
the device object, mode and path. -/
def WeakResetInternalVariables (s : MainState) : MainState :=
  { s with integration_time := 1, _logfile_name := "",
           logger := none, logger_thread := none }

/-- `MainWindow.resetGUIelements` only mutates widget state (button enabling,
label text, radio checks, spinbox value).  The `setValue(1000)` it performs
re-fires `update_intTime(1000)`, which sets `integration_time` to `1` — the
value the preceding internal-variable reset already stored — so on the
modelled attributes it is the identity. -/
def resetGUIelements (s : MainState) : MainState := s

/-- `MainWindow.selectDevice` (slot of `devCombobox.currentTextChanged`). -/
def selectDevice (s : MainState) (devPath : String) : MainState :=
  if s.acq_flag = false then
    let s3 := resetGUIelements (resetDataAndPlots (StrongResetInternalVariables s))
    if devPath ≠ "Select your device" then
      { s3 with _tdc1_dev := some (TimeStampTDC1 devPath), device_path := devPath }
    else s3
  else s

/-- `MainWindow.selectDeviceMode` (slot of `modesCombobox.currentTextChanged`). -/
def selectDeviceMode (s : MainState) (newMode : String) : MainState :=
  if s.acq_flag = false then
    let s3 := resetGUIelements (resetDataAndPlots (WeakResetInternalVariables s))
    if newMode ≠ "Select mode" then
      let dev := match s3._tdc1_dev with
        | none => TimeStampTDC1 s3.device_path
        | some d => d
      { s3 with _tdc1_dev := some { dev with mode := newMode }, _dev_mode := newMode }
    else s3
  else s

/-- `MainWindow.update_intTime`: converts the spinbox value (ms) to seconds
and, when a logger exists (`if self.logger:`), mirrors it into the worker. -/
def update_intTime (s : MainState) (int_time : Int) : MainState :=
  let s1 := { s with integration_time := (int_time : ℚ) * (1 / 1000) }
  match s1.logger with
  | some w => { s1 with logger := some { w with int_time := (int_time : ℚ) * (1 / 1000) } }
  | none => s1

/-- Truncation toward zero of a rational (Python/C float-to-int cast). -/
def ratTrunc (q : ℚ) : Int := if 0 ≤ q then ⌊q⌋ else -⌊-q⌋

/-- `numpy.astype(np.int32)` on a float value: truncate toward zero, wrap into
`[-2^31, 2^31)`. -/
def astype_int32 (q : ℚ) : Int := ((ratTrunc q + 2 ^ 31) % 2 ^ 32) - 2 ^ 31

/-- Wrap-around of numpy's fixed-width integer arithmetic into
`[-2^63, 2^63)`: `y0` is `np.zeros_like(np.arange(0, 1000, 2))`, whose default
dtype is int64, so each sum stored by the in-place `+=` wraps modulo `2^64`. -/
def wrap_int64 (n : Int) : Int := ((n + 2 ^ 63) % 2 ^ 64) - 2 ^ 63

/-- `MainWindow.updateHistogram`: `self.y0 += g2_data['histogram'].astype(np.int32)`.
The int32-cast increments are added into the int64 array `y0` with int64
wrap-around.  numpy's in-place `+=` requires matching shapes; a length mismatch
raises, which is modelled as `none`. -/
def updateHistogram (s : MainState) (g2_data : G2Dict) : Option MainState :=
  if g2_data.histogram.length = s.y0.length then
    some { s with
      y0 := List.zipWith (fun a b => wrap_int64 (a + astype_int32 b)) s.y0 g2_data.histogram }
  else none

/-- `MainWindow.update_data_from_thread` (slot of the `data_is_logged`
signal): slides the five plot buffers when full, appends the new sample, and
stores the worker's radio flags. -/
def update_data_from_thread (s : MainState) (data : List Int) (radio_flags : List Nat) :
    MainState :=
  let s1 :=
    if s.x.length = PLT_SAMPLES then
      let xt := s.x.tail
      { s with x := xt ++ [xt.getLastD 0 + 1],
               y1 := s.y1.tail, y2 := s.y2.tail, y3 := s.y3.tail, y4 := s.y4.tail }
    else
      { s with x := s.x ++ [(s.x.length : Int) + 1] }
  { s1 with y1 := s1.y1 ++ [data.getD 0 0],
            y2 := s1.y2 ++ [data.getD 1 0],
            y3 := s1.y3 ++ [data.getD 2 0],
            y4 := s1.y4 ++ [data.getD 3 0],
            _radio_flags := radio_flags }

/-- `MainWindow.liveStart`.  `button_text` is `liveStart_Button.text()`,
`combobox_text` is `devCombobox.currentText()`, `spin_value` the integration
spinbox value read by `startLogging`.  The second component of the result is
the worker object the thread still holds after the call (the stop branch sets
its `active_flag` to `False` before dropping the GUI's reference; the start
branch creates it via `startLogging`, whose `logging_requested` emission runs
asynchronously in the worker thread and is not part of this handler's
synchronous effect).  Reading `self.logger.active_flag` when `logger` is
`None` raises `AttributeError`. -/
def liveStart (s : MainState) (button_text combobox_text : String) (spin_value : Int) :
    Except PyError (MainState × Option LogWorker) :=
  if s.acq_flag = true ∧ button_text = "Live Stop" then
    match s.logger with
    | none => Except.error (PyError.attributeError "active_flag")
    | some w =>
      let w' := { w with active_flag := false }
      Except.ok ({ s with acq_flag := false, _tdc1_dev := none,
                          logger := none, logger_thread := none }, some w')
  else
    let dev := match s._tdc1_dev with
      | some d => some d
      | none => some (TimeStampTDC1 combobox_text)
    let s2 := resetDataAndPlots { s with _tdc1_dev := dev, acq_flag := true }
    let w : LogWorker := { active_flag := false, radio_flags := [0, 0, 0, 0],
                           int_time := (spin_value : ℚ) * (1 / 1000) }
    Except.ok ({ s2 with logger := some w, logger_thread := some () }, some w)

/-- Python's `str` of a tuple of ints, as interpolated by
`'{},{}\n'.format(time_data, counts)`. -/
def pyStrTuple (xs : List Int) : String :=
  match xs with
  | [x] => "(" ++ toString x ++ ",)"
  | _ => "(" ++ String.intercalate ", " (xs.map toString) ++ ")"

/-- The header line `log_counts_data` writes to a fresh file (newline
stripped, as for all modelled file lines). -/
def counts_header : String := "#time_stamp,counts"

/-- The `try: open(file_name) / except IOError:` prologue of
`log_counts_data`: an existing file is left as is; a missing one is created
holding only the header line. -/
def csv_init (file : Option (List String)) : List String :=
  match file with
  | some ls => ls
  | none => [counts_header]

/-- The CSV row `'{},{}\n'.format(time_data, counts)` written on iteration
`j`: `times j` is `datetime.now().isoformat()` at that iteration, `cnts j`
the tuple returned by the j-th `get_counts` call. -/
def counts_line (times : Nat → String) (cnts : Nat → List Int) (j : Nat) : String :=
  times j ++ "," ++ pyStrTuple (cnts j)

/-- Events observable from the worker: signal emissions and `count_g2`
calls (with the arguments passed). -/
inductive LogEvent where
  | dataLogged (counts : List Int) (dev_mode : String) (radio_flags : List Nat)
  | dataLoggedObj (d : G2Dict) (dev_mode : String) (radio_flags : List Nat)
  | countG2Call (int_time : ℚ) (ch_start ch_stop : Nat)
  | histogramLogged (d : G2Dict)
  | threadFinished (msg : String)
deriving DecidableEq

/-- The while-loop of `logWorker.log_g2`.  Iteration `j` reads `active_flag`
at the `while` test (read `2*j`), calls `count_g2(self.int_time, ch_start=1,
ch_stop=3)` obtaining `g2 j`, emits it on `histogram_logged`, and reads the
flag again at the `if self.active_flag == False: break` test (read `2*j+1`). -/
def log_g2_loop (flag : Nat → Bool) (g2 : Nat → G2Dict) (int_time : ℚ) :
    Nat → Nat → Option (List LogEvent)
  | 0, _ => none
  | fuel + 1, j =>
    if flag (2 * j) = true then
      let evs := [LogEvent.countG2Call int_time 1 3, LogEvent.histogramLogged (g2 j)]
      if flag (2 * j + 1) = true then
        (log_g2_loop flag g2 int_time fuel (j + 1)).map (fun rest => evs ++ rest)
      else some evs
    else some []

/-- `logWorker.log_g2`: the loop followed by the `thread_finished` emission. -/
def log_g2 (flag : Nat → Bool) (g2 : Nat → G2Dict) (int_time : ℚ) (fuel : Nat) :
    Option (List LogEvent) :=
  (log_g2_loop flag g2 int_time fuel 0).map
    (fun evs => evs ++ [LogEvent.threadFinished "Finished logging"])

/-- The event trace of `k` consecutive `log_g2` iterations starting at
iteration `j`: each makes exactly one `count_g2(int_time, 1, 3)` call and
emits the returned dict. -/
def g2Events (int_time : ℚ) (g2 : Nat → G2Dict) (j : Nat) : Nat → List LogEvent
  | 0 => []
  | k + 1 =>
    [LogEvent.countG2Call int_time 1 3, LogEvent.histogramLogged (g2 j)]
      ++ g2Events int_time g2 (j + 1) k

/-- The logging while-loop of `logWorker.log_counts_data` (the
`log_flag == True` branch).  The branch's outer conjunct consumed flag read
`0`, so iteration `j` reads the `while` test at `2*j+1` and the `break` test
at `2*j+2`; each iteration emits `data_is_logged` and appends one CSV row. -/
def log_counts_loop_logged (flag : Nat → Bool) (cnts : Nat → List Int)
    (times : Nat → String) (dev_mode : String) (rflags : List Nat) :
    Nat → Nat → List String → Option (List LogEvent × List String)
  | 0, _, _ => none
  | fuel + 1, j, file =>
    if flag (2 * j + 1) = true then
      let ev := LogEvent.dataLogged (cnts j) dev_mode rflags
      let file' := file ++ [counts_line times cnts j]
      if flag (2 * j + 2) = true then
        (log_counts_loop_logged flag cnts times dev_mode rflags fuel (j + 1) file').map
          (fun r => (ev :: r.1, r.2))
      else some ([ev], file')
    else some ([], file)

/-- The plain while-loop of `logWorker.log_counts_data` (the
`log_flag == False` branch): no file is touched; iteration `j` reads the
`while` test at `2*j` and the `break` test at `2*j+1`. -/
def log_counts_loop_plain (flag : Nat → Bool) (cnts : Nat → List Int)
    (dev_mode : String) (rflags : List Nat) :
    Nat → Nat → Option (List LogEvent)
  | 0, _ => none
  | fuel + 1, j =>
    if flag (2 * j) = true then
      let ev := LogEvent.dataLogged (cnts j) dev_mode rflags
      if flag (2 * j + 1) = true then
        (log_counts_loop_plain flag cnts dev_mode rflags fuel (j + 1)).map
          (fun rest => ev :: rest)
      else some [ev]
    else some []

/-- `logWorker.log_counts_data`.  The `if log_flag == True and
self.active_flag == True` test reads the flag once (read `0`) only when
`log_flag` is true (`and` short-circuits); with `log_flag` false the `elif`
branch's loop starts reading at `0`.  Either way `thread_finished` is emitted
once at the end. -/
def log_counts_data (flag : Nat → Bool) (cnts : Nat → List Int) (times : Nat → String)
    (dev_mode : String) (rflags : List Nat) (log_flag : Bool)
    (file : Option (List String)) (fuel : Nat) :
    Option (List LogEvent × Option (List String)) :=
  if log_flag = true ∧ flag 0 = true then
    (log_counts_loop_logged flag cnts times dev_mode rflags fuel 0 (csv_init file)).map
      (fun r => (r.1 ++ [LogEvent.threadFinished "Finished logging"], some r.2))
  else if log_flag = false then
    (log_counts_loop_plain flag cnts dev_mode rflags fuel 0).map
      (fun evs => (evs ++ [LogEvent.threadFinished "Finished logging"], file))
  else some ([LogEvent.threadFinished "Finished logging"], file)

/-- The event trace of `k` consecutive `data_is_logged` emissions starting at
iteration `j`. -/
def countsEvents (cnts : Nat → List Int) (dev_mode : String) (rflags : List Nat)
    (j : Nat) : Nat → List LogEvent
  | 0 => []
  | k + 1 => LogEvent.dataLogged (cnts j) dev_mode rflags :: countsEvents cnts dev_mode rflags (j + 1) k

/-- The `k` CSV rows appended by iterations `j, j+1, ...`. -/
def countsLines (times : Nat → String) (cnts : Nat → List Int) (j : Nat) :
    Nat → List String
  | 0 => []
  | k + 1 => counts_line times cnts j :: countsLines times cnts (j + 1) k

/-- The plain while-loop of `logWorker.log_coincidences_data` (the
`log_flag == False` branch): emits the `get_counts_and_coincidences` sample
(`cc j` on iteration `j`) and touches no file. -/
def log_coincidences_loop_plain (flag : Nat → Bool) (cc : Nat → List Int)
    (dev_mode : String) (rflags : List Nat) :
    Nat → Nat → Option (List LogEvent)
  | 0, _ => none
  | fuel + 1, j =>
    if flag (2 * j) = true then
      let ev := LogEvent.dataLogged (cc j) dev_mode rflags
      if flag (2 * j + 1) = true then
        (log_coincidences_loop_plain flag cc dev_mode rflags fuel (j + 1)).map
          (fun rest => ev :: rest)
      else some [ev]
    else some []

/-- `logWorker.log_coincidences_data`.  In the `log_flag == True` branch each
iteration computes `coincidences = tdc1_dev.count_g2(self.int_time)`, emits it
on `data_is_logged`, and then formats `'{},{}\n'.format(time_data, counts)` —
but the name `counts` is never assigned anywhere in this function (nor is it a
module global), so the first iteration, if entered, raises
`NameError('counts')` and the exception propagates (the error result drops
the partial trace and file state). -/
def log_coincidences_data (flag : Nat → Bool) (g2c : Nat → G2Dict)
    (cc : Nat → List Int) (dev_mode : String) (rflags : List Nat) (log_flag : Bool)
    (file : Option (List String)) (fuel : Nat) :
    Option (Except PyError (List LogEvent × Option (List String))) :=
  if log_flag = true ∧ flag 0 = true then
    if flag 1 = true then
      some (Except.error (PyError.nameError "counts"))
    else
      some (Except.ok ([LogEvent.threadFinished "Finished logging"],
        some (match file with | some ls => ls | none => ["#time_stamp,coincidences"])))
  else if log_flag = false then
    (log_coincidences_loop_plain flag cc dev_mode rflags fuel 0).map
      (fun evs => Except.ok (evs ++ [LogEvent.threadFinished "Finished logging"], file))
  else some (Except.ok ([LogEvent.threadFinished "Finished logging"], file))

/-- `logWorker.log_which_data` (slot of `logging_requested`): sets
`active_flag` to `True` then dispatches on `dev_mode`.  The first component
of the result is the worker's state after the call (the `active_flag := true`
write happens before any dispatch, hence also before the `'timestamp'`
branch's failing attribute lookup: the class defines no `log_timestamp_data`
method, so that branch raises `AttributeError`).  A `dev_mode` matching no
branch falls through and returns `None`. -/
def log_which_data (w : LogWorker) (file_name device_path : String) (log_flag : Bool)
    (dev_mode : String) (flag : Nat → Bool) (cnts : Nat → List Int)
    (g2 : Nat → G2Dict) (times : Nat → String) (file : Option (List String))
    (fuel : Nat) :
    LogWorker × Option (Except PyError (List LogEvent × Option (List String))) :=
  let w1 := { w with active_flag := true }
  if dev_mode = "singles" then
    (w1, (log_counts_data flag cnts times dev_mode w.radio_flags log_flag file fuel).map
      Except.ok)
  else if dev_mode = "pairs" then
    (w1, (log_g2 flag g2 w.int_time fuel).map (fun evs => Except.ok (evs, file)))
  else if dev_mode = "timestamp" then
    (w1, some (Except.error (PyError.attributeError "log_timestamp_data")))
  else
    (w1, some (Except.ok ([], file)))

/-- The `MainWindow` state right after `__init__`/`initUI` (used as a concrete
sample state by the closed instances below). -/
def initialMainState : MainState :=
  { _tdc1_dev := none, _dev_mode := "", device_path := "",
    integration_time := 1, _logfile_name := "", log_flag := false,
    acq_flag := false, _radio_flags := [0, 0, 0, 0],
    logger := none, logger_thread := none,
    x := [], y1 := [], y2 := [], y3 := [], y4 := [],
    x0 := x0_init, y0 := List.replicate 500 0 }

/-- A `MainWindow` state holding a live logger worker (concrete sample). -/
def sampleLoggerState : MainState :=
  { initialMainState with
    logger := some { active_flag := true, radio_flags := [0, 0, 0, 0], int_time := 1 } }

/-- A concrete g2 dict whose histogram is 500 copies of `5/2` (truncating to
`2`). -/
def sampleG2Dict : G2Dict :=
  { ch_start_counts := 10, ch_stop_counts := 20, acq_time := 1,
    time_bins := [], histogram := List.replicate 500 (5 / 2 : ℚ) }

/-- A `MainWindow` state in the middle of an acquisition (concrete sample). -/
def sampleAcquiringState : MainState := { sampleLoggerState with acq_flag := true }

/-- C8: while an acquisition is running (`acq_flag` true), `selectDevice` and
`selectDeviceMode` are no-ops — the whole state (device object, device path,
device mode, logfile name, plot buffers, radio flags included) is unchanged. -/
theorem select_handlers_noop_while_acquiring (s : MainState) (devPath newMode : String)
    (hacq : s.acq_flag = true) :
    selectDevice s devPath = s ∧ selectDeviceMode s newMode = s := by
  constructor <;> simp [selectDevice, selectDeviceMode, hacq]

/-- Witness for C8 at a concrete acquiring state. -/
theorem select_handlers_noop_while_acquiring_witness :
    ({ initialMainState with acq_flag := true } : MainState).acq_flag = true ∧
      (selectDevice { initialMainState with acq_flag := true } "COM4"
          = { initialMainState with acq_flag := true } ∧
        selectDeviceMode { initialMainState with acq_flag := true } "pairs"
          = { initialMainState with acq_flag := true }) :=
  ⟨rfl, select_handlers_noop_while_acquiring _ "COM4" "pairs" rfl⟩

set_option maxRecDepth 4000 in
/-- C9: after `resetDataAndPlots`, the counts buffers are empty, the histogram
buffer `y0` is 500 zeros with bin array `x0 = 0, 2, ..., 998`, and
`_radio_flags` is `[0,0,0,0]`. -/
theorem resetDataAndPlots_clears (s : MainState) :
    (resetDataAndPlots s).x = [] ∧ (resetDataAndPlots s).y1 = [] ∧
    (resetDataAndPlots s).y2 = [] ∧ (resetDataAndPlots s).y3 = [] ∧
    (resetDataAndPlots s).y4 = [] ∧
    (resetDataAndPlots s).y0 = List.replicate 500 0 ∧
    (resetDataAndPlots s).x0 = x0_init ∧
    (resetDataAndPlots s).x0.length = 500 ∧
    (∀ i, i < 500 → (resetDataAndPlots s).x0.getD i 0 = 2 * (i : Int)) ∧
    (resetDataAndPlots s)._radio_flags = [0, 0, 0, 0] := by
  refine ⟨rfl, rfl, rfl, rfl, rfl, rfl, rfl,
    by rw [resetDataAndPlots, x0_init, List.length_map, List.length_range], ?_, rfl⟩
  intro i hi
  show x0_init.getD i 0 = 2 * (i : Int)
  rw [x0_init, List.getD_eq_getElem?_getD, List.getElem?_map, List.getElem?_range hi]
  simp [Int.ofNat_mul]

/-- C10: `update_intTime t` stores `t/1000` (ms converted to s) in
`integration_time`; when a logger exists its `int_time` is set to the same
value, and when none exists only `integration_time` changes. -/
theorem update_intTime_spec (s : MainState) (t : Int)
    (h0 : 0 ≤ t) (h1 : t ≤ 65535) :
    (update_intTime s t).integration_time = (t : ℚ) / 1000 ∧
    (s.logger = none →
      update_intTime s t = { s with integration_time := (t : ℚ) / 1000 }) ∧
    (∀ w, s.logger = some w →
      update_intTime s t =
        { s with integration_time := (t : ℚ) / 1000,
                 logger := some { w with int_time := (t : ℚ) / 1000 } }) := by
  refine ⟨?_, ?_, ?_⟩
  · rcases hl : s.logger with _ | w <;> simp [update_intTime, hl] <;> ring
  · intro hl; simp [update_intTime, hl] <;> ring
  · intro w hl; simp [update_intTime, hl] <;> ring


/-- Witness for C10: spinbox value 1000 on a state holding a logger. -/
theorem update_intTime_spec_witness :
    (0 : Int) ≤ 1000 ∧ (1000 : Int) ≤ 65535 ∧
      ((update_intTime sampleLoggerState 1000).integration_time
          = ((1000 : Int) : ℚ) / 1000 ∧
        (sampleLoggerState.logger = none →
          update_intTime sampleLoggerState 1000
            = { sampleLoggerState with integration_time := ((1000 : Int) : ℚ) / 1000 }) ∧
        (∀ w, sampleLoggerState.logger = some w →
          update_intTime sampleLoggerState 1000
            = { sampleLoggerState with
                integration_time := ((1000 : Int) : ℚ) / 1000,
                logger := some { w with int_time := ((1000 : Int) : ℚ) / 1000 } })) :=
  ⟨by decide, by decide, update_intTime_spec sampleLoggerState 1000 (by decide) (by decide)⟩

/-- C7: `log_which_data` with `dev_mode = 'timestamp'` sets `active_flag` to
`True` and then raises `AttributeError` (the class defines no
`log_timestamp_data` method). -/
theorem log_which_data_timestamp_raises (w : LogWorker)
    (file_name device_path : String) (log_flag : Bool) (flag : Nat → Bool)
    (cnts : Nat → List Int) (g2 : Nat → G2Dict) (times : Nat → String)
    (file : Option (List String)) (fuel : Nat) :
    log_which_data w file_name device_path log_flag "timestamp" flag cnts g2 times file fuel
        = ({ w with active_flag := true },
            some (Except.error (PyError.attributeError "log_timestamp_data"))) ∧
    (log_which_data w file_name device_path log_flag "timestamp" flag cnts g2 times
        file fuel).1.active_flag = true := by
  constructor <;> rfl

set_option maxRecDepth 4000 in
/-- C1: `update_data_from_thread` with a data sequence of at least four
elements preserves the invariant that the buffers `x, y1, y2, y3, y4` share
one length bounded by `PLT_SAMPLES = 500`; at capacity the oldest element of
each buffer is dropped and the new sample appended, keeping the length at
exactly 500. -/
theorem update_data_from_thread_window (s : MainState) (data : List Int) (rf : List Nat)
    (hdata : 4 ≤ data.length)
    (h1 : s.y1.length = s.x.length) (h2 : s.y2.length = s.x.length)
    (h3 : s.y3.length = s.x.length) (h4 : s.y4.length = s.x.length)
    (hle : s.x.length ≤ PLT_SAMPLES) :
    ((update_data_from_thread s data rf).y1.length
        = (update_data_from_thread s data rf).x.length ∧
      (update_data_from_thread s data rf).y2.length
        = (update_data_from_thread s data rf).x.length ∧
      (update_data_from_thread s data rf).y3.length
        = (update_data_from_thread s data rf).x.length ∧
      (update_data_from_thread s data rf).y4.length
        = (update_data_from_thread s data rf).x.length ∧
      (update_data_from_thread s data rf).x.length ≤ PLT_SAMPLES) ∧
    (s.x.length = PLT_SAMPLES →
      (update_data_from_thread s data rf).x.length = PLT_SAMPLES ∧
      (update_data_from_thread s data rf).x = s.x.tail ++ [s.x.tail.getLastD 0 + 1] ∧
      (update_data_from_thread s data rf).y1 = s.y1.tail ++ [data.getD 0 0] ∧
      (update_data_from_thread s data rf).y2 = s.y2.tail ++ [data.getD 1 0] ∧
      (update_data_from_thread s data rf).y3 = s.y3.tail ++ [data.getD 2 0] ∧
      (update_data_from_thread s data rf).y4 = s.y4.tail ++ [data.getD 3 0]) := by
  by_cases hfull : s.x.length = PLT_SAMPLES
  · have hx : (update_data_from_thread s data rf).x
        = s.x.tail ++ [s.x.tail.getLastD 0 + 1] := by
      simp [update_data_from_thread, hfull]
    have hy1 : (update_data_from_thread s data rf).y1 = s.y1.tail ++ [data.getD 0 0] := by
      simp [update_data_from_thread, hfull]
    have hy2 : (update_data_from_thread s data rf).y2 = s.y2.tail ++ [data.getD 1 0] := by
      simp [update_data_from_thread, hfull]
    have hy3 : (update_data_from_thread s data rf).y3 = s.y3.tail ++ [data.getD 2 0] := by
      simp [update_data_from_thread, hfull]
    have hy4 : (update_data_from_thread s data rf).y4 = s.y4.tail ++ [data.getD 3 0] := by
      simp [update_data_from_thread, hfull]
    rw [PLT_SAMPLES] at hfull
    refine ⟨⟨?_, ?_, ?_, ?_, ?_⟩, fun _ => ⟨?_, hx, hy1, hy2, hy3, hy4⟩⟩ <;>
      simp [hx, hy1, hy2, hy3, hy4, List.length_append, List.length_tail, PLT_SAMPLES] <;>
      omega
  · have hx : (update_data_from_thread s data rf).x
        = s.x ++ [(s.x.length : Int) + 1] := by
      simp [update_data_from_thread, hfull]
    have hy1 : (update_data_from_thread s data rf).y1 = s.y1 ++ [data.getD 0 0] := by
      simp [update_data_from_thread, hfull]
    have hy2 : (update_data_from_thread s data rf).y2 = s.y2 ++ [data.getD 1 0] := by
      simp [update_data_from_thread, hfull]
    have hy3 : (update_data_from_thread s data rf).y3 = s.y3 ++ [data.getD 2 0] := by
      simp [update_data_from_thread, hfull]
    have hy4 : (update_data_from_thread s data rf).y4 = s.y4 ++ [data.getD 3 0] := by
      simp [update_data_from_thread, hfull]
    rw [PLT_SAMPLES] at hfull hle
    refine ⟨⟨?_, ?_, ?_, ?_, ?_⟩, fun h => absurd h ?_⟩ <;>
      simp [hx, hy1, hy2, hy3, hy4, List.length_append, PLT_SAMPLES] <;>
      omega

/-- Witness for C1 on the empty initial buffers and a four-element sample. -/
theorem update_data_from_thread_window_witness :
    4 ≤ ([5, 6, 7, 8] : List Int).length ∧
      initialMainState.y1.length = initialMainState.x.length ∧
      initialMainState.y2.length = initialMainState.x.length ∧
      initialMainState.y3.length = initialMainState.x.length ∧
      initialMainState.y4.length = initialMainState.x.length ∧
      initialMainState.x.length ≤ PLT_SAMPLES ∧
      (((update_data_from_thread initialMainState [5, 6, 7, 8] [0, 0, 0, 0]).y1.length
          = (update_data_from_thread initialMainState [5, 6, 7, 8] [0, 0, 0, 0]).x.length ∧
        (update_data_from_thread initialMainState [5, 6, 7, 8] [0, 0, 0, 0]).y2.length
          = (update_data_from_thread initialMainState [5, 6, 7, 8] [0, 0, 0, 0]).x.length ∧
        (update_data_from_thread initialMainState [5, 6, 7, 8] [0, 0, 0, 0]).y3.length
          = (update_data_from_thread initialMainState [5, 6, 7, 8] [0, 0, 0, 0]).x.length ∧
        (update_data_from_thread initialMainState [5, 6, 7, 8] [0, 0, 0, 0]).y4.length
          = (update_data_from_thread initialMainState [5, 6, 7, 8] [0, 0, 0, 0]).x.length ∧
        (update_data_from_thread initialMainState [5, 6, 7, 8] [0, 0, 0, 0]).x.length
          ≤ PLT_SAMPLES) ∧
      (initialMainState.x.length = PLT_SAMPLES →
        (update_data_from_thread initialMainState [5, 6, 7, 8] [0, 0, 0, 0]).x.length
            = PLT_SAMPLES ∧
        (update_data_from_thread initialMainState [5, 6, 7, 8] [0, 0, 0, 0]).x
            = initialMainState.x.tail ++ [initialMainState.x.tail.getLastD 0 + 1] ∧
        (update_data_from_thread initialMainState [5, 6, 7, 8] [0, 0, 0, 0]).y1
            = initialMainState.y1.tail ++ [([5, 6, 7, 8] : List Int).getD 0 0] ∧
        (update_data_from_thread initialMainState [5, 6, 7, 8] [0, 0, 0, 0]).y2
            = initialMainState.y2.tail ++ [([5, 6, 7, 8] : List Int).getD 1 0] ∧
        (update_data_from_thread initialMainState [5, 6, 7, 8] [0, 0, 0, 0]).y3
            = initialMainState.y3.tail ++ [([5, 6, 7, 8] : List Int).getD 2 0] ∧
        (update_data_from_thread initialMainState [5, 6, 7, 8] [0, 0, 0, 0]).y4
            = initialMainState.y4.tail ++ [([5, 6, 7, 8] : List Int).getD 3 0])) :=
  ⟨by decide, rfl, rfl, rfl, rfl, by decide,
    update_data_from_thread_window initialMainState [5, 6, 7, 8] [0, 0, 0, 0]
      (by decide) rfl rfl rfl rfl (by decide)⟩

/-- Pointwise reading of `List.zipWith` under `getD`, for indices within both
lists. -/
theorem getD_zipWith_of_lt (f : Int → ℚ → Int) (l1 : List Int) (l2 : List ℚ)
    (i : Nat) (h1 : i < l1.length) (h2 : i < l2.length) :
    (List.zipWith f l1 l2).getD i 0 = f (l1.getD i 0) (l2.getD i 0) := by
  rw [List.getD_eq_getElem?_getD, List.getD_eq_getElem?_getD, List.getD_eq_getElem?_getD,
    List.getElem?_zipWith, List.getElem?_eq_getElem h1, List.getElem?_eq_getElem h2]
  rfl

/-- The int32 cast lands in `[-2^31, 2^31)`. -/
theorem astype_int32_bounds (q : ℚ) :
    -(2 ^ 31) ≤ astype_int32 q ∧ astype_int32 q < 2 ^ 31 := by
  have hnn : 0 ≤ (ratTrunc q + 2 ^ 31) % 2 ^ 32 := Int.emod_nonneg _ (by norm_num)
  have hlt : (ratTrunc q + 2 ^ 31) % 2 ^ 32 < 2 ^ 32 :=
    Int.emod_lt_of_pos _ (by norm_num)
  unfold astype_int32
  constructor <;> omega

/-- The int64 wrap is the identity on values already in `[-2^63, 2^63)`. -/
theorem wrap_int64_eq_self (n : Int) (h1 : -(2 ^ 63) ≤ n) (h2 : n < 2 ^ 63) :
    wrap_int64 n = n := by
  unfold wrap_int64
  omega

set_option maxRecDepth 4000 in
/-- C2: `updateHistogram`, on a dict whose `'histogram'` entry matches the
500-bin buffer, replaces each `y0[i]` by `y0[i] + int32-truncation of
`histogram[i]`, and leaves the fixed bin array `x0` unchanged.  The stored sum
wraps into the int64 range of the `y0` array, so the accumulation is exact
precisely when it does not overflow: the hypotheses bound the entry `y0[i]`
far enough inside the int64 range (by the int32 increment's magnitude) for the
wrap to be the identity — satisfied in particular by every buffer within
2^31 of its zero initialisation. -/
theorem updateHistogram_accumulates (s : MainState) (g : G2Dict) (i : Nat)
    (hg : g.histogram.length = 500) (hy : s.y0.length = 500)
    (hx0 : s.x0 = x0_init) (hi : i < 500)
    (hlo : -2 ^ 63 + 2 ^ 31 ≤ s.y0.getD i 0) (hhi : s.y0.getD i 0 < 2 ^ 63 - 2 ^ 31) :
    ∃ s', updateHistogram s g = some s' ∧ s'.x0 = x0_init ∧ s'.x0 = s.x0 ∧
      s'.y0.length = 500 ∧
      s'.y0.getD i 0 = s.y0.getD i 0 + astype_int32 (g.histogram.getD i 0) := by
  refine ⟨{ s with
      y0 := List.zipWith (fun a b => wrap_int64 (a + astype_int32 b)) s.y0 g.histogram },
    ?_, hx0, rfl, ?_, ?_⟩
  · rw [updateHistogram, if_pos (hg.trans hy.symm)]
  · rw [List.length_zipWith, hg, hy]; simp
  · rw [getD_zipWith_of_lt _ s.y0 g.histogram i (hy ▸ hi) (hg ▸ hi)]
    have hb := astype_int32_bounds (g.histogram.getD i 0)
    exact wrap_int64_eq_self _ (by omega) (by omega)

set_option maxRecDepth 8000 in
/-- Witness for C2 at bin 3 of the freshly initialised histogram buffer. -/
theorem updateHistogram_accumulates_witness :
    sampleG2Dict.histogram.length = 500 ∧ initialMainState.y0.length = 500 ∧
      initialMainState.x0 = x0_init ∧ 3 < 500 ∧
      -2 ^ 63 + 2 ^ 31 ≤ initialMainState.y0.getD 3 0 ∧
      initialMainState.y0.getD 3 0 < 2 ^ 63 - 2 ^ 31 ∧
      (∃ s', updateHistogram initialMainState sampleG2Dict = some s' ∧
        s'.x0 = x0_init ∧ s'.x0 = initialMainState.x0 ∧ s'.y0.length = 500 ∧
        s'.y0.getD 3 0
          = initialMainState.y0.getD 3 0 + astype_int32 (sampleG2Dict.histogram.getD 3 0)) :=
  ⟨by simp [sampleG2Dict], by simp [initialMainState], rfl, by decide,
    by decide, by decide,
    updateHistogram_accumulates initialMainState sampleG2Dict 3
      (by simp [sampleG2Dict]) (by simp [initialMainState]) rfl (by decide)
      (by decide) (by decide)⟩

/-- Shape of the `log_g2` while-loop: when some flag read returns `false`
within the fuel bound, the loop terminates after some `k` iterations, its
trace is `g2Events`, and every iteration was admitted by a `true` while-test. -/
theorem log_g2_loop_spec (flag : Nat → Bool) (g2 : Nat → G2Dict) (int_time : ℚ) :
    ∀ fuel j N, flag (2 * j + N) = false → N < fuel →
      ∃ k, log_g2_loop flag g2 int_time fuel j = some (g2Events int_time g2 j k) ∧
        ∀ i, i < k → flag (2 * (j + i)) = true := by
  intro fuel
  induction fuel with
  | zero => intro j N _ h; omega
  | succ fuel ih =>
    intro j N hN _
    by_cases h0 : flag (2 * j) = true
    · by_cases h1 : flag (2 * j + 1) = true
      · have hN2 : 2 ≤ N := by
          rcases N with _ | _ | N
          · rw [Nat.add_zero, h0] at hN; exact Bool.noConfusion hN
          · rw [h1] at hN; exact Bool.noConfusion hN
          · omega
        have harg : 2 * (j + 1) + (N - 2) = 2 * j + N := by omega
        obtain ⟨k, hk, hfl⟩ := ih (j + 1) (N - 2) (by rw [harg]; exact hN) (by omega)
        refine ⟨k + 1, ?_, ?_⟩
        · simp [log_g2_loop, h0, h1, hk, g2Events]
        · intro i hi
          rcases i with _ | i
          · simpa using h0
          · have heq : 2 * (j + (i + 1)) = 2 * ((j + 1) + i) := by omega
            rw [heq]
            exact hfl i (by omega)
      · refine ⟨1, ?_, ?_⟩
        · simp [log_g2_loop, h0, h1, g2Events]
        · intro i hi
          have hi0 : i = 0 := by omega
          subst hi0
          simpa using h0
    · refine ⟨0, ?_, ?_⟩
      · simp [log_g2_loop, h0, g2Events]
      · intro i hi; omega

/-- `log_g2` under an eventually-false flag: terminates with the iteration
trace followed by one `thread_finished`. -/
theorem log_g2_spec (flag : Nat → Bool) (g2 : Nat → G2Dict) (int_time : ℚ)
    (N fuel : Nat) (hN : flag N = false) (hfuel : N < fuel) :
    ∃ k, log_g2 flag g2 int_time fuel
        = some (g2Events int_time g2 0 k ++ [LogEvent.threadFinished "Finished logging"]) ∧
      ∀ i, i < k → flag (2 * i) = true := by
  obtain ⟨k, hk, hfl⟩ := log_g2_loop_spec flag g2 int_time fuel 0 N (by simpa using hN) hfuel
  exact ⟨k, by simp [log_g2, hk], by simpa using hfl⟩

/-- No `thread_finished` is emitted inside the `log_g2` loop itself. -/
theorem count_threadFinished_g2Events (int_time : ℚ) (g2 : Nat → G2Dict) (m : String) :
    ∀ k j, (g2Events int_time g2 j k).count (LogEvent.threadFinished m) = 0 := by
  intro k
  induction k with
  | zero => intro j; rfl
  | succ k ih => intro j; simp [g2Events, ih]

/-- No `thread_finished` is emitted inside the `log_counts_data` loops. -/
theorem count_threadFinished_countsEvents (cnts : Nat → List Int) (dev_mode : String)
    (rflags : List Nat) (m : String) :
    ∀ k j, (countsEvents cnts dev_mode rflags j k).count (LogEvent.threadFinished m) = 0 := by
  intro k
  induction k with
  | zero => intro j; rfl
  | succ k ih => intro j; simp [countsEvents, ih]

/-- Shape of the logging while-loop of `log_counts_data`: terminates under an
eventually-false flag, appending exactly one CSV row per emitted sample. -/
theorem log_counts_loop_logged_spec (flag : Nat → Bool) (cnts : Nat → List Int)
    (times : Nat → String) (dev_mode : String) (rflags : List Nat) :
    ∀ fuel j N file, flag (2 * j + 1 + N) = false → N < fuel →
      ∃ k, log_counts_loop_logged flag cnts times dev_mode rflags fuel j file
          = some (countsEvents cnts dev_mode rflags j k, file ++ countsLines times cnts j k) ∧
        ∀ i, i < k → flag (2 * (j + i) + 1) = true := by
  intro fuel
  induction fuel with
  | zero => intro j N _ _ h; omega
  | succ fuel ih =>
    intro j N file hN _
    by_cases h0 : flag (2 * j + 1) = true
    · by_cases h1 : flag (2 * j + 2) = true
      · have hN2 : 2 ≤ N := by
          rcases N with _ | _ | N
          · rw [Nat.add_zero, h0] at hN; exact Bool.noConfusion hN
          · rw [show 2 * j + 1 + 1 = 2 * j + 2 from rfl, h1] at hN
            exact Bool.noConfusion hN
          · omega
        have harg : 2 * (j + 1) + 1 + (N - 2) = 2 * j + 1 + N := by omega
        obtain ⟨k, hk, hfl⟩ :=
          ih (j + 1) (N - 2) (file ++ [counts_line times cnts j]) (by rw [harg]; exact hN)
            (by omega)
        refine ⟨k + 1, ?_, ?_⟩
        · simp [log_counts_loop_logged, h0, h1, hk, countsEvents, countsLines]
        · intro i hi
          rcases i with _ | i
          · simpa using h0
          · have heq : 2 * (j + (i + 1)) + 1 = 2 * ((j + 1) + i) + 1 := by omega
            rw [heq]
            exact hfl i (by omega)
      · refine ⟨1, ?_, ?_⟩
        · simp [log_counts_loop_logged, h0, h1, countsEvents, countsLines]
        · intro i hi
          have hi0 : i = 0 := by omega
          subst hi0
          simpa using h0
    · refine ⟨0, ?_, ?_⟩
      · simp [log_counts_loop_logged, h0, countsEvents, countsLines]
      · intro i hi; omega

/-- Shape of the plain (non-logging) while-loop of `log_counts_data`. -/
theorem log_counts_loop_plain_spec (flag : Nat → Bool) (cnts : Nat → List Int)
    (dev_mode : String) (rflags : List Nat) :
    ∀ fuel j N, flag (2 * j + N) = false → N < fuel →
      ∃ k, log_counts_loop_plain flag cnts dev_mode rflags fuel j
          = some (countsEvents cnts dev_mode rflags j k) ∧
        ∀ i, i < k → flag (2 * (j + i)) = true := by
  intro fuel
  induction fuel with
  | zero => intro j N _ h; omega
  | succ fuel ih =>
    intro j N hN _
    by_cases h0 : flag (2 * j) = true
    · by_cases h1 : flag (2 * j + 1) = true
      · have hN2 : 2 ≤ N := by
          rcases N with _ | _ | N
          · rw [Nat.add_zero, h0] at hN; exact Bool.noConfusion hN
          · rw [h1] at hN; exact Bool.noConfusion hN
          · omega
        have harg : 2 * (j + 1) + (N - 2) = 2 * j + N := by omega
        obtain ⟨k, hk, hfl⟩ := ih (j + 1) (N - 2) (by rw [harg]; exact hN) (by omega)
        refine ⟨k + 1, ?_, ?_⟩
        · simp [log_counts_loop_plain, h0, h1, hk, countsEvents]
        · intro i hi
          rcases i with _ | i
          · simpa using h0
          · have heq : 2 * (j + (i + 1)) = 2 * ((j + 1) + i) := by omega
            rw [heq]
            exact hfl i (by omega)
      · refine ⟨1, ?_, ?_⟩
        · simp [log_counts_loop_plain, h0, h1, countsEvents]
        · intro i hi
          have hi0 : i = 0 := by omega
          subst hi0
          simpa using h0
    · refine ⟨0, ?_, ?_⟩
      · simp [log_counts_loop_plain, h0, countsEvents]
      · intro i hi; omega

/-- `log_counts_data` with logging enabled and the polling loop entered:
trace, final file, and one `thread_finished`. -/
theorem log_counts_data_logged_spec (flag : Nat → Bool) (cnts : Nat → List Int)
    (times : Nat → String) (dev_mode : String) (rflags : List Nat)
    (file : Option (List String)) (N fuel : Nat)
    (hN : flag N = false) (hfuel : N < fuel) (h0 : flag 0 = true) :
    ∃ k, log_counts_data flag cnts times dev_mode rflags true file fuel
        = some (countsEvents cnts dev_mode rflags 0 k
                  ++ [LogEvent.threadFinished "Finished logging"],
                some (csv_init file ++ countsLines times cnts 0 k)) ∧
      ∀ i, i < k → flag (2 * i + 1) = true := by
  have hN1 : 1 ≤ N := by
    rcases N with _ | N
    · rw [h0] at hN; exact Bool.noConfusion hN
    · omega
  have harg : 2 * 0 + 1 + (N - 1) = N := by omega
  obtain ⟨k, hk, hfl⟩ :=
    log_counts_loop_logged_spec flag cnts times dev_mode rflags fuel 0 (N - 1)
      (csv_init file) (by rw [harg]; exact hN) (by omega)
  refine ⟨k, ?_, by simpa using hfl⟩
  simp [log_counts_data, h0, hk]

/-- `log_counts_data` with logging disabled: trace, untouched file, and one
`thread_finished`. -/
theorem log_counts_data_plain_spec (flag : Nat → Bool) (cnts : Nat → List Int)
    (times : Nat → String) (dev_mode : String) (rflags : List Nat)
    (file : Option (List String)) (N fuel : Nat)
    (hN : flag N = false) (hfuel : N < fuel) :
    ∃ k, log_counts_data flag cnts times dev_mode rflags false file fuel
        = some (countsEvents cnts dev_mode rflags 0 k
                  ++ [LogEvent.threadFinished "Finished logging"], file) ∧
      ∀ i, i < k → flag (2 * i) = true := by
  obtain ⟨k, hk, hfl⟩ :=
    log_counts_loop_plain_spec flag cnts dev_mode rflags fuel 0 N (by simpa using hN) hfuel
  refine ⟨k, ?_, by simpa using hfl⟩
  simp [log_counts_data, hk]

/-- C3: both polling loops (`log_counts_data`, `log_g2`) iterate only while
`active_flag` reads `True`, terminate once a read returns `False`, and emit
`thread_finished` exactly once on exit; the stop branch of `liveStart` cancels
the task by setting `acq_flag` and the logger worker's `active_flag` to
`False`. -/
theorem worker_loops_terminate_and_liveStop_cancels (flag : Nat → Bool)
    (g2 : Nat → G2Dict) (int_time : ℚ) (cnts : Nat → List Int) (times : Nat → String)
    (dev_mode : String) (rflags : List Nat) (log_flag : Bool) (file : Option (List String))
    (s : MainState) (w : LogWorker) (combobox_text : String) (spin_value : Int)
    (N fuel : Nat) (hN : flag N = false) (hfuel : N < fuel)
    (hacq : s.acq_flag = true) (hlog : s.logger = some w) :
    (∃ k, log_g2 flag g2 int_time fuel
        = some (g2Events int_time g2 0 k ++ [LogEvent.threadFinished "Finished logging"]) ∧
      (g2Events int_time g2 0 k
          ++ [LogEvent.threadFinished "Finished logging"]).count
            (LogEvent.threadFinished "Finished logging") = 1 ∧
      ∀ i, i < k → flag (2 * i) = true) ∧
    (∃ out, log_counts_data flag cnts times dev_mode rflags log_flag file fuel = some out ∧
      out.1.count (LogEvent.threadFinished "Finished logging") = 1) ∧
    (flag 0 = true →
      ∃ k, log_counts_data flag cnts times dev_mode rflags true file fuel
          = some (countsEvents cnts dev_mode rflags 0 k
                    ++ [LogEvent.threadFinished "Finished logging"],
                  some (csv_init file ++ countsLines times cnts 0 k)) ∧
        ∀ i, i < k → flag (2 * i + 1) = true) ∧
    (∃ k, log_counts_data flag cnts times dev_mode rflags false file fuel
        = some (countsEvents cnts dev_mode rflags 0 k
                  ++ [LogEvent.threadFinished "Finished logging"], file) ∧
      ∀ i, i < k → flag (2 * i) = true) ∧
    (∃ s' w', liveStart s "Live Stop" combobox_text spin_value = Except.ok (s', some w') ∧
      s'.acq_flag = false ∧ w'.active_flag = false ∧ s'.logger = none) := by
  refine ⟨?_, ?_, ?_, ?_, ?_⟩
  · obtain ⟨k, hk, hfl⟩ := log_g2_spec flag g2 int_time N fuel hN hfuel
    exact ⟨k, hk, by simp [count_threadFinished_g2Events], hfl⟩
  · rcases log_flag with _ | _
    · obtain ⟨k, hk, _⟩ :=
        log_counts_data_plain_spec flag cnts times dev_mode rflags file N fuel hN hfuel
      exact ⟨_, hk, by simp [count_threadFinished_countsEvents]⟩
    · by_cases h0 : flag 0 = true
      · obtain ⟨k, hk, _⟩ :=
          log_counts_data_logged_spec flag cnts times dev_mode rflags file N fuel hN hfuel h0
        exact ⟨_, hk, by simp [count_threadFinished_countsEvents]⟩
      · refine ⟨([LogEvent.threadFinished "Finished logging"], file), ?_, by simp⟩
        simp [log_counts_data, h0]
  · exact fun h0 =>
      log_counts_data_logged_spec flag cnts times dev_mode rflags file N fuel hN hfuel h0
  · exact log_counts_data_plain_spec flag cnts times dev_mode rflags file N fuel hN hfuel
  · have hcond : s.acq_flag = true ∧ ("Live Stop" : String) = "Live Stop" := ⟨hacq, rfl⟩
    refine ⟨{ s with acq_flag := false, _tdc1_dev := none, logger := none, logger_thread := none }, { w with active_flag := false }, ?_, rfl, rfl, rfl⟩
    rw [liveStart, if_pos hcond, hlog]


/-- Witness for C3: the flag reads `false` immediately, so both loops stop at
zero iterations, and the live-stop branch cancels on a concrete acquiring
state. -/
theorem worker_loops_terminate_and_liveStop_cancels_witness :
    (fun _ : Nat => false) 0 = false ∧ 0 < 1 ∧
      sampleAcquiringState.acq_flag = true ∧
      sampleAcquiringState.logger
        = some { active_flag := true, radio_flags := [0, 0, 0, 0], int_time := 1 } ∧
      ((∃ k, log_g2 (fun _ => false) (fun _ => sampleG2Dict) 1 1
          = some (g2Events 1 (fun _ => sampleG2Dict) 0 k
                    ++ [LogEvent.threadFinished "Finished logging"]) ∧
        (g2Events 1 (fun _ => sampleG2Dict) 0 k
            ++ [LogEvent.threadFinished "Finished logging"]).count
              (LogEvent.threadFinished "Finished logging") = 1 ∧
        ∀ i, i < k → (fun _ : Nat => false) (2 * i) = true) ∧
      (∃ out, log_counts_data (fun _ => false) (fun _ => [1, 2, 3, 4]) (fun _ => "t")
          "singles" [0, 0, 0, 0] false none 1 = some out ∧
        out.1.count (LogEvent.threadFinished "Finished logging") = 1) ∧
      ((fun _ : Nat => false) 0 = true →
        ∃ k, log_counts_data (fun _ => false) (fun _ => [1, 2, 3, 4]) (fun _ => "t")
            "singles" [0, 0, 0, 0] true none 1
            = some (countsEvents (fun _ => [1, 2, 3, 4]) "singles" [0, 0, 0, 0] 0 k
                      ++ [LogEvent.threadFinished "Finished logging"],
                    some (csv_init none
                      ++ countsLines (fun _ => "t") (fun _ => [1, 2, 3, 4]) 0 k)) ∧
          ∀ i, i < k → (fun _ : Nat => false) (2 * i + 1) = true) ∧
      (∃ k, log_counts_data (fun _ => false) (fun _ => [1, 2, 3, 4]) (fun _ => "t")
          "singles" [0, 0, 0, 0] false none 1
          = some (countsEvents (fun _ => [1, 2, 3, 4]) "singles" [0, 0, 0, 0] 0 k
                    ++ [LogEvent.threadFinished "Finished logging"], none) ∧
        ∀ i, i < k → (fun _ : Nat => false) (2 * i) = true) ∧
      (∃ s' w', liveStart sampleAcquiringState "Live Stop" "COM4" 1000
          = Except.ok (s', some w') ∧
        s'.acq_flag = false ∧ w'.active_flag = false ∧ s'.logger = none)) :=
  ⟨rfl, by decide, rfl, rfl,
    worker_loops_terminate_and_liveStop_cancels (fun _ => false) (fun _ => sampleG2Dict) 1
      (fun _ => [1, 2, 3, 4]) (fun _ => "t") "singles" [0, 0, 0, 0] false none
      sampleAcquiringState { active_flag := true, radio_flags := [0, 0, 0, 0], int_time := 1 }
      "COM4" 1000 0 1 rfl (by decide) rfl rfl⟩

/-- C5: `log_which_data` with `dev_mode = 'pairs'` delegates to `log_g2`,
whose every iteration while `active_flag` reads `True` makes exactly one
`count_g2(self.int_time, ch_start=1, ch_stop=3)` call and emits the returned
dict on `histogram_logged`. -/
theorem log_which_data_pairs_delegates (w : LogWorker) (file_name device_path : String)
    (log_flag : Bool) (flag : Nat → Bool) (cnts : Nat → List Int) (g2 : Nat → G2Dict)
    (times : Nat → String) (file : Option (List String)) (N fuel : Nat)
    (hN : flag N = false) (hfuel : N < fuel) :
    log_which_data w file_name device_path log_flag "pairs" flag cnts g2 times file fuel
        = ({ w with active_flag := true },
           (log_g2 flag g2 w.int_time fuel).map (fun evs => Except.ok (evs, file))) ∧
    ∃ k, log_g2 flag g2 w.int_time fuel
        = some (g2Events w.int_time g2 0 k ++ [LogEvent.threadFinished "Finished logging"]) ∧
      ∀ i, i < k → flag (2 * i) = true :=
  ⟨rfl, log_g2_spec flag g2 w.int_time N fuel hN hfuel⟩

/-- Witness for C5: one iteration (flag reads `true` then `false`). -/
theorem log_which_data_pairs_delegates_witness :
    (fun n : Nat => decide (n = 0)) 1 = false ∧ 1 < 3 ∧
      (log_which_data { active_flag := false, radio_flags := [0, 0, 0, 0], int_time := 1 }
          "log.csv" "COM4" false "pairs" (fun n => decide (n = 0)) (fun _ => [1, 2, 3, 4])
          (fun _ => sampleG2Dict) (fun _ => "t") none 3
        = ({ active_flag := true, radio_flags := [0, 0, 0, 0], int_time := 1 },
           (log_g2 (fun n => decide (n = 0)) (fun _ => sampleG2Dict) 1 3).map
             (fun evs => Except.ok (evs, none))) ∧
      ∃ k, log_g2 (fun n => decide (n = 0)) (fun _ => sampleG2Dict) 1 3
          = some (g2Events 1 (fun _ => sampleG2Dict) 0 k
                    ++ [LogEvent.threadFinished "Finished logging"]) ∧
        ∀ i, i < k → (fun n : Nat => decide (n = 0)) (2 * i) = true) :=
  ⟨rfl, by decide,
    log_which_data_pairs_delegates
      { active_flag := false, radio_flags := [0, 0, 0, 0], int_time := 1 }
      "log.csv" "COM4" false (fun n => decide (n = 0)) (fun _ => [1, 2, 3, 4])
      (fun _ => sampleG2Dict) (fun _ => "t") none 1 3 rfl (by decide)⟩

/-- C6: `log_coincidences_data` with logging enabled and `active_flag` reading
`True` raises `NameError` on its first loop iteration, at the CSV-row
formatting (`counts` is never assigned in that function). -/
theorem log_coincidences_data_nameError (flag : Nat → Bool) (g2c : Nat → G2Dict)
    (cc : Nat → List Int) (dev_mode : String) (rflags : List Nat)
    (file : Option (List String)) (fuel : Nat)
    (h0 : flag 0 = true) (h1 : flag 1 = true) :
    log_coincidences_data flag g2c cc dev_mode rflags true file fuel
      = some (Except.error (PyError.nameError "counts")) := by
  simp [log_coincidences_data, h0, h1]

/-- Witness for C6: a constantly-true flag. -/
theorem log_coincidences_data_nameError_witness :
    (fun _ : Nat => true) 0 = true ∧ (fun _ : Nat => true) 1 = true ∧
      log_coincidences_data (fun _ => true) (fun _ => sampleG2Dict) (fun _ => [1, 2])
          "pairs" [0, 0, 0, 0] true none 5
        = some (Except.error (PyError.nameError "counts")) :=
  ⟨rfl, rfl,
    log_coincidences_data_nameError (fun _ => true) (fun _ => sampleG2Dict)
      (fun _ => [1, 2]) "pairs" [0, 0, 0, 0] none 5 rfl rfl⟩

/-- C4 counterexample: in `'pairs'` device mode with logging enabled
(`log_flag = True`), the worker's polling loop (`log_g2`, reached through
`log_which_data`) acquires and emits a sample (`histogramLogged`) but writes
nothing to the CSV file — the file (initially nonexistent, `none`) is not
even created, refuting "in every device mode, when logging is enabled the
worker's polling loop writes each acquired sample to the selected CSV file". -/
theorem log_which_data_pairs_ignores_csv :
    log_which_data { active_flag := false, radio_flags := [0, 0, 0, 0], int_time := 1 }
        "log.csv" "COM4" true "pairs" (fun n => decide (n = 0)) (fun _ => [1, 2, 3, 4])
        (fun _ => sampleG2Dict) (fun _ => "2021-01-01T00:00:00") none 5
      = ({ active_flag := true, radio_flags := [0, 0, 0, 0], int_time := 1 },
         some (Except.ok
           ([LogEvent.countG2Call 1 1 3, LogEvent.histogramLogged sampleG2Dict,
             LogEvent.threadFinished "Finished logging"], none))) := by
  rfl

/-- C4 (amended): only in singles mode does the polling loop log to the CSV:
with `log_flag` true and the loop entered, `log_counts_data` appends, for each
emitted sample, one row `'<ISO timestamp>,<counts>'`, after a header
`'#time_stamp,counts'` written if and only if the file did not previously
exist; in pairs mode the worker delegates to `log_g2`, which passes the file
through untouched whatever `log_flag` is. -/
theorem log_which_data_singles_logs_csv (w : LogWorker) (file_name device_path : String)
    (flag : Nat → Bool) (cnts : Nat → List Int) (g2 : Nat → G2Dict)
    (times : Nat → String) (file : Option (List String)) (N fuel : Nat)
    (hN : flag N = false) (hfuel : N < fuel) (h0 : flag 0 = true) :
    (∃ k, log_which_data w file_name device_path true "singles" flag cnts g2 times file fuel
        = ({ w with active_flag := true },
           some (Except.ok
             (countsEvents cnts "singles" w.radio_flags 0 k
                ++ [LogEvent.threadFinished "Finished logging"],
              some (csv_init file ++ countsLines times cnts 0 k)))) ∧
      ∀ i, i < k → flag (2 * i + 1) = true) ∧
    csv_init none = [counts_header] ∧
    (∀ ls, csv_init (some ls) = ls) ∧
    log_which_data w file_name device_path true "pairs" flag cnts g2 times file fuel
      = ({ w with active_flag := true },
         (log_g2 flag g2 w.int_time fuel).map (fun evs => Except.ok (evs, file))) := by
  obtain ⟨k, hk, hfl⟩ :=
    log_counts_data_logged_spec flag cnts times "singles" w.radio_flags file N fuel hN hfuel h0
  refine ⟨⟨k, ?_, hfl⟩, rfl, fun ls => rfl, rfl⟩
  simp [log_which_data, hk]

/-- Witness for C4's amended theorem: one logged iteration writes one row
after creating the file with its header. -/
theorem log_which_data_singles_logs_csv_witness :
    (fun n : Nat => decide (n < 2)) 2 = false ∧ 2 < 4 ∧
      (fun n : Nat => decide (n < 2)) 0 = true ∧
      ((∃ k, log_which_data { active_flag := false, radio_flags := [0, 0, 0, 0], int_time := 1 }
          "log.csv" "COM4" true "singles" (fun n => decide (n < 2)) (fun _ => [1, 2, 3, 4])
          (fun _ => sampleG2Dict) (fun _ => "2021-01-01T00:00:00") none 4
          = ({ active_flag := true, radio_flags := [0, 0, 0, 0], int_time := 1 },
             some (Except.ok
               (countsEvents (fun _ => [1, 2, 3, 4]) "singles" [0, 0, 0, 0] 0 k
                  ++ [LogEvent.threadFinished "Finished logging"],
                some (csv_init none
                  ++ countsLines (fun _ => "2021-01-01T00:00:00") (fun _ => [1, 2, 3, 4]) 0 k)))) ∧
        ∀ i, i < k → (fun n : Nat => decide (n < 2)) (2 * i + 1) = true) ∧
      csv_init none = [counts_header] ∧
      (∀ ls, csv_init (some ls) = ls) ∧
      log_which_data { active_flag := false, radio_flags := [0, 0, 0, 0], int_time := 1 }
          "log.csv" "COM4" true "pairs" (fun n => decide (n < 2)) (fun _ => [1, 2, 3, 4])
          (fun _ => sampleG2Dict) (fun _ => "2021-01-01T00:00:00") none 4
        = ({ active_flag := true, radio_flags := [0, 0, 0, 0], int_time := 1 },
           (log_g2 (fun n => decide (n < 2)) (fun _ => sampleG2Dict) 1 4).map
             (fun evs => Except.ok (evs, none)))) :=
  ⟨rfl, by decide, rfl,
    log_which_data_singles_logs_csv
      { active_flag := false, radio_flags := [0, 0, 0, 0], int_time := 1 }
      "log.csv" "COM4" (fun n => decide (n < 2)) (fun _ => [1, 2, 3, 4])
      (fun _ => sampleG2Dict) (fun _ => "2021-01-01T00:00:00") none 2 4 rfl (by decide) rfl⟩
